import Mathlib

/-!
# ESP32 Soil Sentinel — verification of the spec against the firmware

Shallow embedding of `ESP32-Soil-Sentinel.ino`.  The firmware is a single
polling loop over global mutable state; we model that state explicitly as
`AppState` and every routine of the sketch as a pure state transformer.
External inputs of one loop iteration (the millisecond clock, the analog
soil reading, the two DHT readings, the WiFi status polls, the HTTP result
code of the ThingSpeak write, and the three button levels) are passed as
arguments.  Side effects on the LCD, the serial log and the cloud are
recorded as event lists inside the state.

Machine integers: `millis()` returns a 32-bit unsigned long and
`lastConnectionTime` is a (32-bit) long; the loop's elapsed-time test
`millis() - lastConnectionTime > postingInterval` is therefore a subtraction
modulo 2^32 compared against 30000, which we model with `Int.emod` by
`2^32`.  The C `%` on `int` truncates toward zero, which is `Int.tmod`.
Float readings from the DHT sensor are only tested for NaN and passed
through, never computed with, so we carry them as `Option ℚ`
(`none` = NaN).
-/

namespace SoilSentinel

/-- One LCD driver call, as issued by the sketch: `lcd.clear()`,
`lcd.setCursor(col, row)` or `lcd.print(text)`. -/
inductive LcdOp : Type where
  | clear : LcdOp
  | setCursor (col row : Nat) : LcdOp
  | print (text : String) : LcdOp
deriving DecidableEq, Repr

/-- A plant calibration record, from `struct PlantProfile`. -/
structure PlantProfile : Type where
  name : String
  drySoilMoisture : Int
  wetSoilMoisture : Int
  channelID : Nat
  apiKey : String
deriving DecidableEq, Repr

/-- One completed ThingSpeak write: the three numeric fields, the status
string and the destination channel, as assembled in
`monitoringAndSendingScreen` before `ThingSpeak.writeFields`. -/
structure Post : Type where
  channelID : Nat
  apiKey : String
  field1Temperature : ℚ
  field2SoilMoisture : Int
  field3Humidity : ℚ
  statusText : String
deriving DecidableEq, Repr

/-- The global mutable state of the sketch, plus event logs for the
observable effects (LCD writes, serial prints, cloud posts) and an
accumulator for the blocking `delay(ms)` calls. -/
structure AppState : Type where
  profiles : List PlantProfile
  numPlants : Int
  selectedPlantIndex : Int
  plantWasChosen : Bool
  calibrationMode : Bool
  lastConnectionTime : Int
  wifiConnected : Bool
  lcd : List LcdOp
  logs : List String
  posts : List Post
  elapsedMs : Nat
deriving DecidableEq, Repr

/-- `const long postingInterval = 30000;`. -/
def postingInterval : Int := 30000

/-- 2^32, the modulus of `unsigned long` arithmetic on the ESP32. -/
def uint32Mod : Int := 4294967296

/-- `PlantProfile plantProfiles[] = ...;` — the sketch ships with a single
placeholder row (`TODO: Fill with your plant data`), so the compiled list
has one all-empty record. -/
def plantProfiles : List PlantProfile :=
  [{ name := "", drySoilMoisture := 0, wetSoilMoisture := 0,
     channelID := 0, apiKey := "" }]

/-- The default record returned by an out-of-range array read; never
reached while the index invariant holds. -/
def defaultProfile : PlantProfile :=
  { name := "", drySoilMoisture := 0, wetSoilMoisture := 0,
    channelID := 0, apiKey := "" }

/-- `plantProfiles[i]` for an `int` index. -/
def getProfile (s : AppState) : PlantProfile :=
  s.profiles.getD s.selectedPlantIndex.toNat defaultProfile

/-- C `%` on `int` operands: truncated remainder, undefined (here `none`)
when the divisor is zero. -/
def cMod (a b : Int) : Option Int :=
  if b = 0 then none else some (a.tmod b)

/-- The global state right after `setup()` in normal (non-calibration)
operation: index 0, no plant chosen, timers zero.  `wifiOk` is the outcome
of the `connectWiFi()` call made during setup; the LCD/serial traffic of
setup itself is not needed by any claim and is left empty. -/
def initialState (wifiOk : Bool) : AppState :=
  { profiles := plantProfiles
    numPlants := plantProfiles.length
    selectedPlantIndex := 0
    plantWasChosen := false
    calibrationMode := false
    lastConnectionTime := 0
    wifiConnected := wifiOk
    lcd := []
    logs := []
    posts := []
    elapsedMs := 0 }

/-- `runCalibrationMode()`: print the raw analog value to LCD and serial,
`delay(250)`. -/
def runCalibrationMode (soil : Int) (s : AppState) : AppState :=
  { s with
    lcd := s.lcd ++ [.setCursor 0 1, .print ("Value: " ++ toString soil ++ "   ")]
    logs := s.logs ++ ["Calibration Value: " ++ toString soil]
    elapsedMs := s.elapsedMs + 250 }

/-- The body of the UP-button branch of `selectionScreen`:
`selectedPlantIndex = (selectedPlantIndex + 1) % numPlants; delay(200);`. -/
def bumpUp (s : AppState) : Option AppState :=
  (cMod (s.selectedPlantIndex + 1) s.numPlants).map fun j =>
    { s with selectedPlantIndex := j, elapsedMs := s.elapsedMs + 200 }

/-- The body of the DOWN-button branch of `selectionScreen`:
`selectedPlantIndex = (selectedPlantIndex - 1 + numPlants) % numPlants;
delay(200);`. -/
def bumpDown (s : AppState) : Option AppState :=
  (cMod (s.selectedPlantIndex - 1 + s.numPlants) s.numPlants).map fun j =>
    { s with selectedPlantIndex := j, elapsedMs := s.elapsedMs + 200 }

/-- The body of the SELECT-button branch of `selectionScreen`: set
`plantWasChosen`, announce the monitored plant, `delay(2000)`, and set
`lastConnectionTime = -postingInterval` to trigger an immediate first
reading. -/
def commitSelection (s : AppState) : AppState :=
  { s with
    plantWasChosen := true
    lcd := s.lcd ++ [.clear, .print "Monitoring:", .setCursor 0 1,
                     .print (getProfile s).name]
    elapsedMs := s.elapsedMs + 2000
    lastConnectionTime := -postingInterval }

/-- The unconditional redraw at the top of `selectionScreen`: current plant
name on row 0, `"< UP/DOWN >"` on row 1. -/
def drawMenu (s : AppState) : AppState :=
  { s with lcd := s.lcd ++ [.setCursor 0 0,
                            .print ("Plant: " ++ (getProfile s).name ++ " "),
                            .setCursor 0 1, .print "< UP/DOWN >"] }

/-- `selectionScreen()`: draw the menu, then handle UP, DOWN and SELECT in
sequence.  `none` models the undefined behaviour of `% numPlants` with
`numPlants = 0`. -/
def selectionScreen (up down sel : Bool) (s : AppState) : Option AppState :=
  (if up then bumpUp (drawMenu s) else some (drawMenu s)).bind fun s2 =>
    (if down then bumpDown s2 else some s2).map fun s3 =>
      if sel then commitSelection s3 else s3

/-- The soil classifier inside `monitoringAndSendingScreen`: two
comparisons against the profile thresholds, tie goes to `"Ideal soil"`. -/
def soilStatusOf (soil dry wet : Int) : String :=
  if soil > dry then "Water the soil"
  else if soil < wet then "Soil too wet"
  else "Ideal soil"

/-- The WiFi retry loop of `connectWiFi`:
`while (WiFi.status() != WL_CONNECTED && attempts < 20) { ...; attempts++ }`.
`connAt k` is the status polled when `attempts = k`.  The returned value is
the final `attempts`.  `fuel` only drives the structural recursion; started
at `20 - attempts` it never cuts the loop short, because `attempts`
increases by one per iteration and the loop guard stops at 20. -/
def wifiLoop (connAt : Nat → Bool) : Nat → Nat → Nat
  | 0, attempts => attempts
  | fuel + 1, attempts =>
      if ¬ connAt attempts ∧ attempts < 20 then
        wifiLoop connAt fuel (attempts + 1)
      else attempts

/-- The number of retry iterations `connectWiFi` performs when entered
disconnected, each preceded by one status poll and followed by
`delay(500)`. -/
def wifiAttempts (connAt : Nat → Bool) : Nat :=
  wifiLoop connAt 20 0

/-- `connectWiFi()`: return at once if already connected; otherwise poll up
to 20 times at 500 ms spacing, print one dot per attempt, then report
`"Connected!"` or `"Connection failed"` and `delay(1000)`.  The status
test after the loop is the poll following the last loop poll. -/
def connectWiFi (connAt : Nat → Bool) (s : AppState) : AppState :=
  if s.wifiConnected then s
  else
    let a : Nat := wifiAttempts connAt
    let connected : Bool := if a < 20 then true else connAt 20
    { s with
      wifiConnected := connected
      lcd := s.lcd ++ [.clear, .setCursor 0 0, .print "Connecting WiFi"]
              ++ List.replicate a (.print ".")
              ++ [.clear, .setCursor 0 0,
                  .print (if connected then "Connected!" else "Connection failed"),
                  .clear]
      elapsedMs := s.elapsedMs + 500 * a + 1000 }

/-- The entry of `monitoringAndSendingScreen`: stamp
`lastConnectionTime = millis()`, then
`if (WiFi.status() != WL_CONNECTED) connectWiFi();`. -/
def wifiStep (now : Int) (connAt : Nat → Bool) (s : AppState) : AppState :=
  if s.wifiConnected then { s with lastConnectionTime := now }
  else connectWiFi connAt { s with lastConnectionTime := now }

/-- The soil status for the profile currently selected in `s`. -/
def statusOfState (s : AppState) (soil : Int) : String :=
  soilStatusOf soil (getProfile s).drySoilMoisture (getProfile s).wetSoilMoisture

/-- The ThingSpeak record assembled by `monitoringAndSendingScreen` from
state `s` and the sensor readings. -/
def postOf (s : AppState) (soil : Int) (t h : ℚ) : Post :=
  { channelID := (getProfile s).channelID
    apiKey := (getProfile s).apiKey
    field1Temperature := t
    field2SoilMoisture := soil
    field3Humidity := h
    statusText := "Plant: " ++ (getProfile s).name ++ " - " ++ statusOfState s soil }

/-- The serial line printed after `ThingSpeak.writeFields` returns
`httpCode`. -/
def resultLog (s : AppState) (httpCode : Int) : String :=
  if httpCode = 200 then "Data sent to channel: " ++ (getProfile s).name
  else "Error sending data. HTTP Code: " ++ toString httpCode

/-- `monitoringAndSendingScreen()`: stamp `lastConnectionTime = millis()`,
reconnect WiFi if needed, read the sensors, bail out with a serial log if
either DHT reading is NaN, otherwise classify the soil, redraw the LCD,
post the three fields plus status to the profile's channel, and log the
HTTP result (`httpCode`). -/
def monitoringAndSendingScreen (now soil : Int) (temp hum : Option ℚ)
    (connAt : Nat → Bool) (httpCode : Int) (s : AppState) : AppState :=
  let s2 : AppState := wifiStep now connAt s
  match temp, hum with
  | some t, some h =>
      let s3 : AppState :=
        { s2 with lcd := s2.lcd ++ [.clear, .setCursor 0 0,
            .print ("T:" ++ toString t ++ "C H:" ++ toString h ++ "%"),
            .setCursor 0 1, .print (statusOfState s2 soil)] }
      let s4 : AppState := { s3 with posts := s3.posts ++ [postOf s2 soil t h] }
      { s4 with logs := s4.logs ++ [resultLog s2 httpCode] }
  | _, _ =>
      { s2 with logs := s2.logs ++ ["Error reading from DHT sensor!"] }

/-- The posting gate in `loop()`:
`millis() - lastConnectionTime > postingInterval`, computed in
`unsigned long` arithmetic (subtraction modulo 2^32, `long` operands
converted to `unsigned long`). -/
def postDue (now last : Int) : Bool :=
  (now - last) % uint32Mod > postingInterval

/-- The SELECT-in-monitoring branch of `loop()`: drop back to the
selection menu and `delay(500)`. -/
def backToSelection (s : AppState) : AppState :=
  { s with
    plantWasChosen := false
    lcd := s.lcd ++ [.clear, .print "Select the", .setCursor 0 1, .print "plant:"]
    elapsedMs := s.elapsedMs + 500 }

/-- One iteration of `loop()`.  Inputs of the iteration: `now` is
`millis()`, `soil` the analog reading, `temp`/`hum` the DHT readings
(`none` = NaN), `connAt` the WiFi status polls seen by a `connectWiFi`
call, `httpCode` the ThingSpeak result, and `up`/`down`/`sel` whether each
button reads LOW (pressed). -/
def loopTick (now soil : Int) (temp hum : Option ℚ) (connAt : Nat → Bool)
    (httpCode : Int) (up down sel : Bool) (s : AppState) : Option AppState :=
  if s.calibrationMode then
    some (runCalibrationMode soil s)
  else if ¬ s.plantWasChosen then
    selectionScreen up down sel s
  else
    let s1 : AppState :=
      if postDue now s.lastConnectionTime then
        monitoringAndSendingScreen now soil temp hum connAt httpCode s
      else s
    some (if sel then backToSelection s1 else s1)

/-! ## Helper lemmas -/

/-- For nonnegative dividend and positive divisor the C remainder agrees
with the Euclidean one and lies in `[0, b)`. -/
lemma tmod_bounds (a b : Int) (ha : 0 ≤ a) (hb : 0 < b) :
    a.tmod b = a % b ∧ 0 ≤ a.tmod b ∧ a.tmod b < b := by
  have h := Int.tmod_eq_emod ha (le_of_lt hb)
  exact ⟨h, h ▸ Int.emod_nonneg a (ne_of_gt hb), h ▸ Int.emod_lt_of_pos a hb⟩

lemma cMod_of_ne_zero (a b : Int) (hb : b ≠ 0) : cMod a b = some (a.tmod b) := by
  simp [cMod, hb]

lemma bumpUp_eq (s : AppState) (h : s.numPlants ≠ 0) :
    bumpUp s = some { s with
      selectedPlantIndex := (s.selectedPlantIndex + 1).tmod s.numPlants
      elapsedMs := s.elapsedMs + 200 } := by
  simp [bumpUp, cMod_of_ne_zero _ _ h]

lemma bumpDown_eq (s : AppState) (h : s.numPlants ≠ 0) :
    bumpDown s = some { s with
      selectedPlantIndex := (s.selectedPlantIndex - 1 + s.numPlants).tmod s.numPlants
      elapsedMs := s.elapsedMs + 200 } := by
  simp [bumpDown, cMod_of_ne_zero _ _ h]

/-- Everything `bumpUp` can return: only the index and the delay counter
change, and the divisor was nonzero. -/
lemma bumpUp_some (s s' : AppState) (h : bumpUp s = some s') :
    s.numPlants ≠ 0 ∧
    s' = { s with
      selectedPlantIndex := (s.selectedPlantIndex + 1).tmod s.numPlants
      elapsedMs := s.elapsedMs + 200 } := by
  by_cases hz : s.numPlants = 0
  · simp [bumpUp, cMod, hz] at h
  · rw [bumpUp_eq s hz] at h
    exact ⟨hz, (Option.some_inj.mp h).symm⟩

lemma bumpDown_some (s s' : AppState) (h : bumpDown s = some s') :
    s.numPlants ≠ 0 ∧
    s' = { s with
      selectedPlantIndex := (s.selectedPlantIndex - 1 + s.numPlants).tmod s.numPlants
      elapsedMs := s.elapsedMs + 200 } := by
  by_cases hz : s.numPlants = 0
  · simp [bumpDown, cMod, hz] at h
  · rw [bumpDown_eq s hz] at h
    exact ⟨hz, (Option.some_inj.mp h).symm⟩

/-- Effect of the optional UP-button step on every state field. -/
lemma upStep_some (up : Bool) (t t' : AppState)
    (h : (if up then bumpUp t else some t) = some t') :
    t'.profiles = t.profiles ∧ t'.numPlants = t.numPlants ∧
    t'.calibrationMode = t.calibrationMode ∧ t'.wifiConnected = t.wifiConnected ∧
    t'.posts = t.posts ∧ t'.plantWasChosen = t.plantWasChosen ∧
    t'.lastConnectionTime = t.lastConnectionTime ∧ t'.lcd = t.lcd ∧
    t'.logs = t.logs ∧
    (up = false → t'.selectedPlantIndex = t.selectedPlantIndex) ∧
    (0 ≤ t.selectedPlantIndex → t.selectedPlantIndex < t.numPlants →
      0 ≤ t'.selectedPlantIndex ∧ t'.selectedPlantIndex < t.numPlants) := by
  cases up with
  | false =>
      cases Option.some_inj.mp h
      simp_all
  | true =>
      obtain ⟨hz, rfl⟩ := bumpUp_some t t' h
      refine ⟨rfl, rfl, rfl, rfl, rfl, rfl, rfl, rfl, rfl, by simp, ?_⟩
      intro h0 h1
      have hb := tmod_bounds (t.selectedPlantIndex + 1) t.numPlants
        (by omega) (by omega)
      exact ⟨hb.2.1, hb.2.2⟩

/-- Effect of the optional DOWN-button step on every state field. -/
lemma downStep_some (down : Bool) (t t' : AppState)
    (h : (if down then bumpDown t else some t) = some t') :
    t'.profiles = t.profiles ∧ t'.numPlants = t.numPlants ∧
    t'.calibrationMode = t.calibrationMode ∧ t'.wifiConnected = t.wifiConnected ∧
    t'.posts = t.posts ∧ t'.plantWasChosen = t.plantWasChosen ∧
    t'.lastConnectionTime = t.lastConnectionTime ∧ t'.lcd = t.lcd ∧
    t'.logs = t.logs ∧
    (down = false → t'.selectedPlantIndex = t.selectedPlantIndex) ∧
    (0 ≤ t.selectedPlantIndex → t.selectedPlantIndex < t.numPlants →
      0 ≤ t'.selectedPlantIndex ∧ t'.selectedPlantIndex < t.numPlants) := by
  cases down with
  | false =>
      cases Option.some_inj.mp h
      simp_all
  | true =>
      obtain ⟨hz, rfl⟩ := bumpDown_some t t' h
      refine ⟨rfl, rfl, rfl, rfl, rfl, rfl, rfl, rfl, rfl, by simp, ?_⟩
      intro h0 h1
      have hb := tmod_bounds (t.selectedPlantIndex - 1 + t.numPlants) t.numPlants
        (by omega) (by omega)
      exact ⟨hb.2.1, hb.2.2⟩

/-- Everything a successful `selectionScreen` call does to the state, for
any button combination. -/
lemma selectionScreen_some (up down sel : Bool) (s s' : AppState)
    (h : selectionScreen up down sel s = some s') :
    s'.profiles = s.profiles ∧ s'.numPlants = s.numPlants ∧
    s'.calibrationMode = s.calibrationMode ∧
    s'.wifiConnected = s.wifiConnected ∧ s'.posts = s.posts ∧
    s'.plantWasChosen = (sel || s.plantWasChosen) ∧
    (sel = true → s'.lastConnectionTime = -postingInterval) ∧
    (sel = false → s'.lastConnectionTime = s.lastConnectionTime) ∧
    (up = false → down = false → s'.selectedPlantIndex = s.selectedPlantIndex) ∧
    (0 ≤ s.selectedPlantIndex → s.selectedPlantIndex < s.numPlants →
      0 ≤ s'.selectedPlantIndex ∧ s'.selectedPlantIndex < s.numPlants) := by
  rcases Option.bind_eq_some.mp h with ⟨s2, h2, h3⟩
  rcases Option.map_eq_some'.mp h3 with ⟨s3, h4, h5⟩
  have hu := upStep_some up (drawMenu s) s2 h2
  have hd := downStep_some down s2 s3 h4
  have hdm : (drawMenu s).selectedPlantIndex = s.selectedPlantIndex ∧
      (drawMenu s).numPlants = s.numPlants ∧ (drawMenu s).profiles = s.profiles ∧
      (drawMenu s).calibrationMode = s.calibrationMode ∧
      (drawMenu s).wifiConnected = s.wifiConnected ∧
      (drawMenu s).posts = s.posts ∧
      (drawMenu s).plantWasChosen = s.plantWasChosen ∧
      (drawMenu s).lastConnectionTime = s.lastConnectionTime := by
    simp [drawMenu]
  cases sel with
  | false =>
      cases h5
      simp only [Bool.false_eq_true, if_false] at *
      refine ⟨?_, ?_, ?_, ?_, ?_, ?_, by simp, ?_, ?_, ?_⟩ <;>
        simp_all
  | true =>
      cases h5
      simp only [if_true] at *
      refine ⟨?_, ?_, ?_, ?_, ?_, ?_, ?_, by simp, ?_, ?_⟩ <;>
        simp_all [commitSelection]

/-- An UP-only iteration of the selection screen, `numPlants ≠ 0`. -/
lemma selectionScreen_up_only (s : AppState) (h : s.numPlants ≠ 0) :
    selectionScreen true false false s =
      some { drawMenu s with
        selectedPlantIndex := (s.selectedPlantIndex + 1).tmod s.numPlants
        elapsedMs := s.elapsedMs + 200 } := by
  have hdm : (drawMenu s).numPlants ≠ 0 := by simpa [drawMenu] using h
  simp only [selectionScreen, if_true, Bool.false_eq_true, if_false]
  rw [bumpUp_eq _ hdm]
  simp [drawMenu]

/-- A DOWN-only iteration of the selection screen, `numPlants ≠ 0`. -/
lemma selectionScreen_down_only (s : AppState) (h : s.numPlants ≠ 0) :
    selectionScreen false true false s =
      some { drawMenu s with
        selectedPlantIndex := (s.selectedPlantIndex - 1 + s.numPlants).tmod s.numPlants
        elapsedMs := s.elapsedMs + 200 } := by
  have hdm : (drawMenu s).numPlants ≠ 0 := by simpa [drawMenu] using h
  simp only [selectionScreen, if_true, Bool.false_eq_true, if_false, Option.some_bind]
  rw [bumpDown_eq _ hdm]
  simp [drawMenu]

/-- A SELECT-only iteration of the selection screen. -/
lemma selectionScreen_sel_only (s : AppState) :
    selectionScreen false false true s = some (commitSelection (drawMenu s)) := by
  simp [selectionScreen]

/-- A sample two-plant configuration used to instantiate the theorems. -/
def demoProfiles : List PlantProfile :=
  [{ name := "Basil", drySoilMoisture := 2100, wetSoilMoisture := 1400,
     channelID := 1001, apiKey := "KEYA" },
   { name := "Fern", drySoilMoisture := 2500, wetSoilMoisture := 1700,
     channelID := 1002, apiKey := "KEYB" }]

/-- A concrete reachable-shape state over `demoProfiles`, used as input of
the witness theorems. -/
def demoState : AppState :=
  { profiles := demoProfiles
    numPlants := 2
    selectedPlantIndex := 1
    plantWasChosen := false
    calibrationMode := false
    lastConnectionTime := 0
    wifiConnected := true
    lcd := []
    logs := []
    posts := []
    elapsedMs := 0 }

/-! ## C1 — soil classifier -/

/-- C1: with `dry > wet` the classifier answers `"Water the soil"` iff
`v > dry`, `"Soil too wet"` iff `v < wet`, `"Ideal soil"` otherwise; a
value equal to either threshold is ideal; and the three spec examples for
`dry = 2100`, `wet = 1400` evaluate as stated. -/
theorem classifier_spec (v dry wet : Int) (hdw : dry > wet) :
    (soilStatusOf v dry wet = "Water the soil" ↔ v > dry) ∧
    (soilStatusOf v dry wet = "Soil too wet" ↔ v < wet) ∧
    (soilStatusOf v dry wet = "Ideal soil" ↔ (wet ≤ v ∧ v ≤ dry)) ∧
    (v = dry ∨ v = wet → soilStatusOf v dry wet = "Ideal soil") ∧
    soilStatusOf 2300 2100 1400 = "Water the soil" ∧
    soilStatusOf 1200 2100 1400 = "Soil too wet" ∧
    soilStatusOf 1800 2100 1400 = "Ideal soil" := by
  unfold soilStatusOf
  refine ⟨?_, ?_, ?_, ?_, by decide, by decide, by decide⟩ <;>
    split <;> rename_i h1 <;> try split <;> rename_i h2
  all_goals simp_all <;> omega

/-- Witness for C1 at `v = 2100`, `dry = 2100`, `wet = 1400`: a value on
the dry threshold is classified ideal. -/
theorem classifier_spec_witness :
    (2100 : Int) > 1400 ∧ soilStatusOf 2100 2100 1400 = "Ideal soil" :=
  ⟨by decide, (classifier_spec 2100 2100 1400 (by decide)).2.2.2.1 (Or.inl rfl)⟩

/-! ## C5 — index wrap-around -/

/-- C5: from any in-range index `i`, an UP-only press moves the selection
to `(i + 1) % N` and a DOWN-only press to `(i - 1 + N) % N`. -/
theorem index_wraps (s : AppState)
    (h0 : 0 ≤ s.selectedPlantIndex) (h1 : s.selectedPlantIndex < s.numPlants) :
    (∃ s', selectionScreen true false false s = some s' ∧
      s'.selectedPlantIndex = (s.selectedPlantIndex + 1) % s.numPlants) ∧
    (∃ s', selectionScreen false true false s = some s' ∧
      s'.selectedPlantIndex = (s.selectedPlantIndex - 1 + s.numPlants) % s.numPlants) := by
  have hz : s.numPlants ≠ 0 := by omega
  constructor
  · refine ⟨_, selectionScreen_up_only s hz, ?_⟩
    simpa using (tmod_bounds (s.selectedPlantIndex + 1) s.numPlants
      (by omega) (by omega)).1
  · refine ⟨_, selectionScreen_down_only s hz, ?_⟩
    simpa using (tmod_bounds (s.selectedPlantIndex - 1 + s.numPlants) s.numPlants
      (by omega) (by omega)).1

/-- Witness for C5 at `demoState` (`i = 1`, `N = 2`): UP wraps to 0 and
DOWN goes to 0 as well. -/
theorem index_wraps_witness :
    (∃ s', selectionScreen true false false demoState = some s' ∧
      s'.selectedPlantIndex = (demoState.selectedPlantIndex + 1) % demoState.numPlants) ∧
    (∃ s', selectionScreen false true false demoState = some s' ∧
      s'.selectedPlantIndex =
        (demoState.selectedPlantIndex - 1 + demoState.numPlants) % demoState.numPlants) :=
  index_wraps demoState (by decide) (by decide)

/-! ## C10 — the modulo is total once `numPlants ≥ 1` -/

/-- C10: the C remainder is undefined for divisor 0, but under the
precondition `numPlants ≥ 1` every `% numPlants` in `selectionScreen` is a
division by a nonzero number and the whole button handler is total. -/
theorem index_update_total :
    (∀ a : Int, cMod a 0 = none) ∧
    (∀ a b : Int, 1 ≤ b → cMod a b = some (a.tmod b)) ∧
    (∀ up down sel : Bool, ∀ s : AppState, 1 ≤ s.numPlants →
      (selectionScreen up down sel s).isSome = true) := by
  refine ⟨fun a => by simp [cMod], fun a b hb => cMod_of_ne_zero a b (by omega), ?_⟩
  intro up down sel s hN
  have hdm : (drawMenu s).numPlants ≠ 0 := by simp [drawMenu]; omega
  cases hX : (if up then bumpUp (drawMenu s) else some (drawMenu s)) with
  | none =>
      exfalso
      cases up with
      | false => simp at hX
      | true => rw [bumpUp_eq _ hdm] at hX; cases hX
  | some s2 =>
      have h2 : s2.numPlants ≠ 0 := by
        have := (upStep_some up (drawMenu s) s2 hX).2.1
        omega
      cases hY : (if down then bumpDown s2 else some s2) with
      | none =>
          exfalso
          cases down with
          | false => simp at hY
          | true => rw [bumpDown_eq _ h2] at hY; cases hY
      | some s3 =>
          simp [selectionScreen, hX, hY]

/-- Witness for C10: divisor 3 is accepted, divisor 0 is the `none`
branch, and a full button-handler call on `demoState` succeeds. -/
theorem index_update_total_witness :
    cMod 5 0 = none ∧ cMod 5 3 = some (Int.tmod 5 3) ∧
    (selectionScreen true true true demoState).isSome = true :=
  ⟨index_update_total.1 5, index_update_total.2.1 5 3 (by decide),
   index_update_total.2.2 true true true demoState (by decide)⟩

/-! ## C6 — connectWiFi -/

/-- The retry loop never leaves the `attempts ≤ 20` range. -/
lemma wifiLoop_le (connAt : Nat → Bool) (fuel : Nat) :
    ∀ attempts : Nat, attempts ≤ 20 → wifiLoop connAt fuel attempts ≤ 20 := by
  induction fuel with
  | zero => intro a h; simpa [wifiLoop] using h
  | succ fuel ih =>
      intro a h
      simp only [wifiLoop]
      split
      · next hc => exact ih (a + 1) (by omega)
      · exact h

/-- If every status poll fails, the loop runs its full complement of
iterations. -/
lemma wifiLoop_all_fail (connAt : Nat → Bool) (hc : ∀ k, connAt k = false)
    (fuel : Nat) :
    ∀ attempts : Nat, attempts + fuel = 20 → wifiLoop connAt fuel attempts = 20 := by
  induction fuel with
  | zero => intro a h; simpa [wifiLoop] using h
  | succ fuel ih =>
      intro a h
      have hlt : a < 20 := by omega
      simp only [wifiLoop, hc a, Bool.false_eq_true, not_false_iff, true_and, hlt,
        if_true]
      exact ih (a + 1) (by omega)

lemma wifiAttempts_le (connAt : Nat → Bool) : wifiAttempts connAt ≤ 20 :=
  wifiLoop_le connAt 20 0 (by omega)

lemma wifiAttempts_all_fail (connAt : Nat → Bool) (hc : ∀ k, connAt k = false) :
    wifiAttempts connAt = 20 :=
  wifiLoop_all_fail connAt hc 20 0 rfl

/-- The shape of the state produced by an actual (non-skipped)
`connectWiFi` run. -/
lemma connectWiFi_run (connAt : Nat → Bool) (s : AppState)
    (hw : s.wifiConnected = false) :
    connectWiFi connAt s =
      { s with
        wifiConnected := if wifiAttempts connAt < 20 then true else connAt 20
        lcd := s.lcd ++ [.clear, .setCursor 0 0, .print "Connecting WiFi"]
                ++ List.replicate (wifiAttempts connAt) (.print ".")
                ++ [.clear, .setCursor 0 0,
                    .print (if (if wifiAttempts connAt < 20 then true else connAt 20)
                            then "Connected!" else "Connection failed"),
                    .clear]
        elapsedMs := s.elapsedMs + 500 * wifiAttempts connAt + 1000 } := by
  simp [connectWiFi, hw]

/-- C6: `connectWiFi` is the identity when already connected; otherwise it
makes at most 20 polls at 500 ms apiece (≤ 10 s of retry delay, plus the
fixed 1 s result display), reports `"Connected!"` or `"Connection failed"`
on the LCD according to the final status, and when every poll fails it
uses exactly the 20 attempts (10 s), reports failure and leaves WiFi
disconnected; a later monitoring cycle entered with WiFi down retries by
running `connectWiFi` again. -/
theorem connectWiFi_spec :
    (∀ connAt : Nat → Bool, ∀ s : AppState, s.wifiConnected = true →
      connectWiFi connAt s = s) ∧
    (∀ connAt : Nat → Bool, wifiAttempts connAt ≤ 20) ∧
    (∀ connAt : Nat → Bool, ∀ s : AppState, s.wifiConnected = false →
      (connectWiFi connAt s).elapsedMs
          = s.elapsedMs + 500 * wifiAttempts connAt + 1000 ∧
      500 * wifiAttempts connAt ≤ 10000 ∧
      ((connectWiFi connAt s).wifiConnected = true →
        LcdOp.print "Connected!" ∈ (connectWiFi connAt s).lcd) ∧
      ((connectWiFi connAt s).wifiConnected = false →
        LcdOp.print "Connection failed" ∈ (connectWiFi connAt s).lcd)) ∧
    (∀ connAt : Nat → Bool, ∀ s : AppState,
      (∀ k, connAt k = false) → s.wifiConnected = false →
      (connectWiFi connAt s).wifiConnected = false ∧
      wifiAttempts connAt = 20 ∧
      (connectWiFi connAt s).elapsedMs = s.elapsedMs + 10000 + 1000 ∧
      LcdOp.print "Connection failed" ∈ (connectWiFi connAt s).lcd) ∧
    (∀ now soil : Int, ∀ temp hum : Option ℚ, ∀ connAt : Nat → Bool,
      ∀ httpCode : Int, ∀ s : AppState, s.wifiConnected = false →
      (monitoringAndSendingScreen now soil temp hum connAt httpCode s).wifiConnected
        = (connectWiFi connAt { s with lastConnectionTime := now }).wifiConnected) := by
  refine ⟨fun connAt s hw => by simp [connectWiFi, hw], wifiAttempts_le, ?_, ?_, ?_⟩
  · intro connAt s hw
    have hle := wifiAttempts_le connAt
    rw [connectWiFi_run connAt s hw]
    cases hb : (if wifiAttempts connAt < 20 then true else connAt 20) with
    | false => simp [hb]; omega
    | true => simp [hb]; omega
  · intro connAt s hc hw
    have ha := wifiAttempts_all_fail connAt hc
    rw [connectWiFi_run connAt s hw]
    simp [ha, hc 20]
  · intro now soil temp hum connAt httpCode s hw
    cases temp <;> cases hum <;>
      simp [monitoringAndSendingScreen, wifiStep, hw]

/-- Witness for C6: a concrete disconnected state with an all-fail poll
stream reaches the 20-attempt timeout, shows the failure text, and stays
disconnected; and the same `connectWiFi` on a connected state is a no-op. -/
theorem connectWiFi_spec_witness :
    connectWiFi (fun _ => false) demoState = demoState ∧
    ((connectWiFi (fun _ => false)
        { demoState with wifiConnected := false }).wifiConnected = false ∧
      wifiAttempts (fun _ => false) = 20 ∧
      (connectWiFi (fun _ => false)
        { demoState with wifiConnected := false }).elapsedMs
          = { demoState with wifiConnected := false }.elapsedMs + 10000 + 1000 ∧
      LcdOp.print "Connection failed" ∈
        (connectWiFi (fun _ => false)
          { demoState with wifiConnected := false }).lcd) :=
  ⟨connectWiFi_spec.1 (fun _ => false) demoState rfl,
   connectWiFi_spec.2.2.2.1 (fun _ => false)
     { demoState with wifiConnected := false } (fun _ => rfl) rfl⟩

/-! ## Monitoring-cycle lemmas -/

/-- `connectWiFi` never touches the profile list, the counters, the mode
flags, the serial log or the cloud posts. -/
lemma connectWiFi_frame (connAt : Nat → Bool) (t : AppState) :
    (connectWiFi connAt t).profiles = t.profiles ∧
    (connectWiFi connAt t).numPlants = t.numPlants ∧
    (connectWiFi connAt t).selectedPlantIndex = t.selectedPlantIndex ∧
    (connectWiFi connAt t).plantWasChosen = t.plantWasChosen ∧
    (connectWiFi connAt t).calibrationMode = t.calibrationMode ∧
    (connectWiFi connAt t).lastConnectionTime = t.lastConnectionTime ∧
    (connectWiFi connAt t).logs = t.logs ∧
    (connectWiFi connAt t).posts = t.posts := by
  unfold connectWiFi
  split <;> simp

/-- The WiFi entry step of a monitoring cycle: the only fields it can
change are the timestamp (always set to `now`), the WiFi flag, the LCD
trace and the delay counter. -/
lemma wifiStep_frame (now : Int) (connAt : Nat → Bool) (s : AppState) :
    (wifiStep now connAt s).profiles = s.profiles ∧
    (wifiStep now connAt s).numPlants = s.numPlants ∧
    (wifiStep now connAt s).selectedPlantIndex = s.selectedPlantIndex ∧
    (wifiStep now connAt s).plantWasChosen = s.plantWasChosen ∧
    (wifiStep now connAt s).calibrationMode = s.calibrationMode ∧
    (wifiStep now connAt s).lastConnectionTime = now ∧
    (wifiStep now connAt s).logs = s.logs ∧
    (wifiStep now connAt s).posts = s.posts := by
  unfold wifiStep
  split
  · simp
  · have h := connectWiFi_frame connAt { s with lastConnectionTime := now }
    simpa using h

/-- When WiFi is already connected the entry step only stamps the
timestamp. -/
lemma wifiStep_connected (now : Int) (connAt : Nat → Bool) (s : AppState)
    (hw : s.wifiConnected = true) :
    wifiStep now connAt s = { s with lastConnectionTime := now } := by
  simp [wifiStep, hw]

/-- A monitoring cycle whose DHT read is NaN: the new state, in full. -/
lemma monitoring_nan (now soil : Int) (temp hum : Option ℚ)
    (connAt : Nat → Bool) (httpCode : Int) (s : AppState)
    (hnan : temp = none ∨ hum = none) :
    monitoringAndSendingScreen now soil temp hum connAt httpCode s =
      { wifiStep now connAt s with
        logs := (wifiStep now connAt s).logs ++ ["Error reading from DHT sensor!"] } := by
  rcases hnan with h | h <;> subst h <;>
    first
      | (cases hum <;> rfl)
      | (cases temp <;> rfl)

/-- A monitoring cycle with valid DHT readings: the new state, in full. -/
lemma monitoring_ok (now soil : Int) (t h : ℚ) (connAt : Nat → Bool)
    (httpCode : Int) (s : AppState) :
    monitoringAndSendingScreen now soil (some t) (some h) connAt httpCode s =
      { wifiStep now connAt s with
        lcd := (wifiStep now connAt s).lcd ++ [.clear, .setCursor 0 0,
          .print ("T:" ++ toString t ++ "C H:" ++ toString h ++ "%"),
          .setCursor 0 1, .print (statusOfState (wifiStep now connAt s) soil)]
        posts := (wifiStep now connAt s).posts ++ [postOf (wifiStep now connAt s) soil t h]
        logs := (wifiStep now connAt s).logs ++ [resultLog (wifiStep now connAt s) httpCode] } :=
  rfl

/-- Fields of a monitoring cycle that never change, whatever the readings
and the HTTP result: profiles, counters, mode flags; and the timestamp is
always set to `now`. -/
lemma monitoring_frame (now soil : Int) (temp hum : Option ℚ)
    (connAt : Nat → Bool) (httpCode : Int) (s : AppState) :
    (monitoringAndSendingScreen now soil temp hum connAt httpCode s).profiles = s.profiles ∧
    (monitoringAndSendingScreen now soil temp hum connAt httpCode s).numPlants = s.numPlants ∧
    (monitoringAndSendingScreen now soil temp hum connAt httpCode s).selectedPlantIndex
      = s.selectedPlantIndex ∧
    (monitoringAndSendingScreen now soil temp hum connAt httpCode s).plantWasChosen
      = s.plantWasChosen ∧
    (monitoringAndSendingScreen now soil temp hum connAt httpCode s).calibrationMode
      = s.calibrationMode ∧
    (monitoringAndSendingScreen now soil temp hum connAt httpCode s).lastConnectionTime
      = now := by
  have hf := wifiStep_frame now connAt s
  cases temp <;> cases hum <;>
    simp [monitoringAndSendingScreen, hf.1, hf.2.1, hf.2.2.1, hf.2.2.2.1,
      hf.2.2.2.2.1, hf.2.2.2.2.2.1]

/-! ## C2 — NaN from the DHT sensor -/

/-- A concrete state in Monitoring mode (`plantWasChosen`), WiFi up,
timestamp 0. -/
def demoChosen : AppState := { demoState with plantWasChosen := true }

/-- Refutes C2 as stated: on a NaN temperature the function does change
application state — it has already stamped `lastConnectionTime` with the
current `millis()` on entry (here 0 becomes 40000). -/
theorem dht_nan_counterexample :
    (monitoringAndSendingScreen 40000 1800 none (some 50) (fun _ => false) 200
        demoChosen).lastConnectionTime ≠ demoChosen.lastConnectionTime := by
  decide

/-- C2 as amended: on a NaN reading (and WiFi already up, so `connectWiFi`
is skipped) the cycle performs no cloud post, no display mutation and no
delay, and emits exactly one log line — but it does set
`lastConnectionTime` to the entry time, re-arming the 30 s timer. -/
theorem dht_nan_skips_cycle (now soil : Int) (temp hum : Option ℚ)
    (connAt : Nat → Bool) (httpCode : Int) (s : AppState)
    (hw : s.wifiConnected = true) (hnan : temp = none ∨ hum = none) :
    monitoringAndSendingScreen now soil temp hum connAt httpCode s =
      { s with lastConnectionTime := now
               logs := s.logs ++ ["Error reading from DHT sensor!"] } ∧
    (monitoringAndSendingScreen now soil temp hum connAt httpCode s).posts = s.posts ∧
    (monitoringAndSendingScreen now soil temp hum connAt httpCode s).lcd = s.lcd ∧
    (monitoringAndSendingScreen now soil temp hum connAt httpCode s).elapsedMs
      = s.elapsedMs := by
  have h := monitoring_nan now soil temp hum connAt httpCode s hnan
  rw [h, wifiStep_connected now connAt s hw]
  exact ⟨rfl, rfl, rfl, rfl⟩

/-- Witness for C2 (amended) at `demoChosen` with a NaN temperature. -/
theorem dht_nan_skips_cycle_witness :
    monitoringAndSendingScreen 40000 1800 none (some 50) (fun _ => false) 200
        demoChosen =
      { demoChosen with lastConnectionTime := 40000
                        logs := demoChosen.logs ++ ["Error reading from DHT sensor!"] } ∧
    (monitoringAndSendingScreen 40000 1800 none (some 50) (fun _ => false) 200
        demoChosen).posts = demoChosen.posts ∧
    (monitoringAndSendingScreen 40000 1800 none (some 50) (fun _ => false) 200
        demoChosen).lcd = demoChosen.lcd ∧
    (monitoringAndSendingScreen 40000 1800 none (some 50) (fun _ => false) 200
        demoChosen).elapsedMs = demoChosen.elapsedMs :=
  dht_nan_skips_cycle 40000 1800 none (some 50) (fun _ => false) 200 demoChosen
    rfl (Or.inl rfl)

/-! ## C8 — non-200 HTTP result -/

/-- C8: on a non-200 result code the cycle appends exactly the one error
log line; the rest of the state (display, posts, timestamp — everything
but the log) is identical to what a 200 result would have produced, with
exactly one post sent, and the timer is stamped so the next attempt waits
for the next scheduled tick. -/
theorem post_failure_logs_only (now soil : Int) (t h : ℚ)
    (connAt : Nat → Bool) (httpCode : Int) (s : AppState)
    (hc : httpCode ≠ 200) :
    (monitoringAndSendingScreen now soil (some t) (some h) connAt httpCode s).posts
      = (monitoringAndSendingScreen now soil (some t) (some h) connAt 200 s).posts ∧
    (monitoringAndSendingScreen now soil (some t) (some h) connAt httpCode s).posts
      = (wifiStep now connAt s).posts ++ [postOf (wifiStep now connAt s) soil t h] ∧
    (monitoringAndSendingScreen now soil (some t) (some h) connAt httpCode s).logs
      = (wifiStep now connAt s).logs
          ++ ["Error sending data. HTTP Code: " ++ toString httpCode] ∧
    { monitoringAndSendingScreen now soil (some t) (some h) connAt httpCode s with
        logs := [] }
      = { monitoringAndSendingScreen now soil (some t) (some h) connAt 200 s with
        logs := [] } ∧
    (monitoringAndSendingScreen now soil (some t) (some h) connAt httpCode s).lastConnectionTime
      = now := by
  rw [monitoring_ok, monitoring_ok]
  refine ⟨rfl, rfl, ?_, rfl, ?_⟩
  · simp [resultLog, hc]
  · simpa using (wifiStep_frame now connAt s).2.2.2.2.2.1

/-- Witness for C8 at `demoChosen` with HTTP code 404. -/
theorem post_failure_logs_only_witness :
    (monitoringAndSendingScreen 40000 1800 (some 22) (some 50) (fun _ => false) 404
        demoChosen).posts
      = (monitoringAndSendingScreen 40000 1800 (some 22) (some 50) (fun _ => false) 200
        demoChosen).posts ∧
    (monitoringAndSendingScreen 40000 1800 (some 22) (some 50) (fun _ => false) 404
        demoChosen).posts
      = (wifiStep 40000 (fun _ => false) demoChosen).posts
          ++ [postOf (wifiStep 40000 (fun _ => false) demoChosen) 1800 22 50] ∧
    (monitoringAndSendingScreen 40000 1800 (some 22) (some 50) (fun _ => false) 404
        demoChosen).logs
      = (wifiStep 40000 (fun _ => false) demoChosen).logs
          ++ ["Error sending data. HTTP Code: " ++ toString (404 : Int)] ∧
    { monitoringAndSendingScreen 40000 1800 (some 22) (some 50) (fun _ => false) 404
        demoChosen with logs := [] }
      = { monitoringAndSendingScreen 40000 1800 (some 22) (some 50) (fun _ => false) 200
        demoChosen with logs := [] } ∧
    (monitoringAndSendingScreen 40000 1800 (some 22) (some 50) (fun _ => false) 404
        demoChosen).lastConnectionTime = 40000 :=
  post_failure_logs_only 40000 1800 22 50 (fun _ => false) 404 demoChosen (by decide)

/-! ## Loop-branch lemmas -/

lemma loopTick_calib (now soil : Int) (temp hum : Option ℚ) (connAt : Nat → Bool)
    (httpCode : Int) (up down sel : Bool) (s : AppState)
    (hcal : s.calibrationMode = true) :
    loopTick now soil temp hum connAt httpCode up down sel s
      = some (runCalibrationMode soil s) := by
  simp [loopTick, hcal]

lemma loopTick_selecting (now soil : Int) (temp hum : Option ℚ) (connAt : Nat → Bool)
    (httpCode : Int) (up down sel : Bool) (s : AppState)
    (hcal : s.calibrationMode = false) (hch : s.plantWasChosen = false) :
    loopTick now soil temp hum connAt httpCode up down sel s
      = selectionScreen up down sel s := by
  simp [loopTick, hcal, hch]

lemma loopTick_monitoring (now soil : Int) (temp hum : Option ℚ) (connAt : Nat → Bool)
    (httpCode : Int) (up down sel : Bool) (s : AppState)
    (hcal : s.calibrationMode = false) (hch : s.plantWasChosen = true) :
    loopTick now soil temp hum connAt httpCode up down sel s
      = some (if sel
              then backToSelection
                (if postDue now s.lastConnectionTime
                 then monitoringAndSendingScreen now soil temp hum connAt httpCode s
                 else s)
              else
                (if postDue now s.lastConnectionTime
                 then monitoringAndSendingScreen now soil temp hum connAt httpCode s
                 else s)) := by
  simp [loopTick, hcal, hch]

/-! ## C3 — the 30-second posting gate -/

/-- Refutes C3 as stated: at an elapsed time of exactly 30000 ms the claim
demands a post, but the tick leaves the state untouched — the code's gate
is `>` (strictly greater), not `≥`. -/
theorem post_gate_counterexample :
    (30000 : Int) - demoChosen.lastConnectionTime ≥ postingInterval ∧
    loopTick 30000 1800 (some 22) (some 50) (fun _ => false) 200 false false false
        demoChosen = some demoChosen := by
  constructor
  · decide
  · decide

/-- C3 as amended: in Monitoring mode (SELECT not pressed) the post cycle
runs exactly when `(millis() - lastConnectionTime) mod 2^32` is strictly
greater than 30000 ms; when it is not (in particular at exactly 30000 or
below) the tick is a no-op; and within one wrap period of the 32-bit clock
the gate is exactly the strict comparison. -/
theorem post_gate_strict (now soil : Int) (temp hum : Option ℚ)
    (connAt : Nat → Bool) (httpCode : Int) (up down : Bool) (s : AppState)
    (hcal : s.calibrationMode = false) (hch : s.plantWasChosen = true) :
    (postDue now s.lastConnectionTime = false →
      loopTick now soil temp hum connAt httpCode up down false s = some s) ∧
    (postDue now s.lastConnectionTime = true →
      loopTick now soil temp hum connAt httpCode up down false s
        = some (monitoringAndSendingScreen now soil temp hum connAt httpCode s)) ∧
    (0 ≤ now - s.lastConnectionTime → now - s.lastConnectionTime < uint32Mod →
      (postDue now s.lastConnectionTime = true
        ↔ now - s.lastConnectionTime > postingInterval)) := by
  refine ⟨?_, ?_, ?_⟩
  · intro hg
    rw [loopTick_monitoring now soil temp hum connAt httpCode up down false s hcal hch]
    simp [hg]
  · intro hg
    rw [loopTick_monitoring now soil temp hum connAt httpCode up down false s hcal hch]
    simp [hg]
  · intro h0 h1
    simp only [uint32Mod] at h1
    simp [postDue, uint32Mod, Int.emod_eq_of_lt h0 h1]

/-- Witness for C3 (amended) on `demoChosen` (`lastConnectionTime = 0`):
at `now = 20000` the gate is closed and the tick is a no-op, at
`now = 40000` it is open and the monitoring cycle runs, and at both times
the gate agrees with the strict comparison. -/
theorem post_gate_strict_witness :
    loopTick 20000 1800 (some 22) (some 50) (fun _ => false) 200 false false false
        demoChosen = some demoChosen ∧
    loopTick 40000 1800 (some 22) (some 50) (fun _ => false) 200 false false false
        demoChosen
      = some (monitoringAndSendingScreen 40000 1800 (some 22) (some 50)
          (fun _ => false) 200 demoChosen) ∧
    (postDue 40000 demoChosen.lastConnectionTime = true
      ↔ (40000 : Int) - demoChosen.lastConnectionTime > postingInterval) :=
  ⟨(post_gate_strict 20000 1800 (some 22) (some 50) (fun _ => false) 200
      false false demoChosen rfl rfl).1 (by decide),
   (post_gate_strict 40000 1800 (some 22) (some 50) (fun _ => false) 200
      false false demoChosen rfl rfl).2.1 (by decide),
   (post_gate_strict 40000 1800 (some 22) (some 50) (fun _ => false) 200
      false false demoChosen rfl rfl).2.2 (by decide) (by decide)⟩

/-! ## C4 — mode transitions -/

/-- C4: a SELECT press while Selecting commits the current index, enters
Monitoring and back-dates the post timer to `-postingInterval`, which
opens the gate at every subsequent tick time `0 < now` (within a clock
wrap); a SELECT press while Monitoring returns to Selecting; and no tick
ever changes `calibrationMode`, nor `plantWasChosen` without a SELECT
press. -/
theorem mode_transitions :
    (∀ now soil : Int, ∀ temp hum : Option ℚ, ∀ connAt : Nat → Bool,
      ∀ httpCode : Int, ∀ s : AppState,
      s.calibrationMode = false → s.plantWasChosen = false →
      loopTick now soil temp hum connAt httpCode false false true s
          = some (commitSelection (drawMenu s)) ∧
      (commitSelection (drawMenu s)).plantWasChosen = true ∧
      (commitSelection (drawMenu s)).selectedPlantIndex = s.selectedPlantIndex ∧
      (commitSelection (drawMenu s)).lastConnectionTime = -postingInterval) ∧
    (∀ now2 : Int, 0 < now2 → now2 + postingInterval < uint32Mod →
      postDue now2 (-postingInterval) = true) ∧
    (∀ now soil : Int, ∀ temp hum : Option ℚ, ∀ connAt : Nat → Bool,
      ∀ httpCode : Int, ∀ up down : Bool, ∀ s s' : AppState,
      s.calibrationMode = false → s.plantWasChosen = true →
      loopTick now soil temp hum connAt httpCode up down true s = some s' →
      s'.plantWasChosen = false) ∧
    (∀ now soil : Int, ∀ temp hum : Option ℚ, ∀ connAt : Nat → Bool,
      ∀ httpCode : Int, ∀ up down sel : Bool, ∀ s s' : AppState,
      loopTick now soil temp hum connAt httpCode up down sel s = some s' →
      s'.calibrationMode = s.calibrationMode ∧
      (sel = false → s'.plantWasChosen = s.plantWasChosen)) := by
  refine ⟨?_, ?_, ?_, ?_⟩
  · intro now soil temp hum connAt httpCode s hcal hch
    refine ⟨?_, rfl, ?_, rfl⟩
    · rw [loopTick_selecting now soil temp hum connAt httpCode false false true s
        hcal hch]
      exact selectionScreen_sel_only s
    · simp [commitSelection, drawMenu]
  · intro now2 h0 h1
    simp only [postingInterval, uint32Mod] at h1
    have he : (now2 - -30000) % 4294967296 = now2 + 30000 := by
      rw [show now2 - -30000 = now2 + 30000 by ring]
      exact Int.emod_eq_of_lt (by omega) (by omega)
    simp [postDue, postingInterval, uint32Mod, he]
    omega
  · intro now soil temp hum connAt httpCode up down s s' hcal hch h
    rw [loopTick_monitoring now soil temp hum connAt httpCode up down true s
      hcal hch] at h
    have := Option.some_inj.mp h
    subst this
    simp [backToSelection]
  · intro now soil temp hum connAt httpCode up down sel s s' h
    cases hcal : s.calibrationMode with
    | true =>
        rw [loopTick_calib now soil temp hum connAt httpCode up down sel s hcal] at h
        have := Option.some_inj.mp h
        subst this
        simp [runCalibrationMode, hcal]
    | false =>
        cases hch : s.plantWasChosen with
        | false =>
            rw [loopTick_selecting now soil temp hum connAt httpCode up down sel s
              hcal hch] at h
            have hs := selectionScreen_some up down sel s s' h
            refine ⟨hs.2.2.1.trans hcal, fun hsel => ?_⟩
            rw [hs.2.2.2.2.2.1]
            simp [hsel, hch]
        | true =>
            rw [loopTick_monitoring now soil temp hum connAt httpCode up down sel s
              hcal hch] at h
            have := Option.some_inj.mp h
            subst this
            have hm := monitoring_frame now soil temp hum connAt httpCode s
            cases sel with
            | true =>
                cases hpd : postDue now s.lastConnectionTime <;>
                  simp [backToSelection, hpd, hcal, hm.2.2.2.2.1]
            | false =>
                cases hpd : postDue now s.lastConnectionTime <;>
                  simp [hpd, hcal, hch, hm.2.2.2.1, hm.2.2.2.2.1]

/-- Witness for C4: on `demoState` a SELECT press at `now = 500` commits
index 1 and back-dates the timer, the gate is then open at `now = 1000`;
on `demoChosen` a SELECT press leaves Monitoring; and a tick without
SELECT on `demoCalib` changes neither flag. -/
theorem mode_transitions_witness :
    (loopTick 500 1800 (some 22) (some 50) (fun _ => false) 200 false false true
        demoState = some (commitSelection (drawMenu demoState)) ∧
      (commitSelection (drawMenu demoState)).plantWasChosen = true ∧
      (commitSelection (drawMenu demoState)).selectedPlantIndex
        = demoState.selectedPlantIndex ∧
      (commitSelection (drawMenu demoState)).lastConnectionTime = -postingInterval) ∧
    postDue 1000 (-postingInterval) = true ∧
    (backToSelection (monitoringAndSendingScreen 40000 1800 (some 22) (some 50)
        (fun _ => false) 200 demoChosen)).plantWasChosen = false :=
  ⟨mode_transitions.1 500 1800 (some 22) (some 50) (fun _ => false) 200 demoState
      rfl rfl,
   mode_transitions.2.1 1000 (by decide) (by decide),
   mode_transitions.2.2.1 40000 1800 (some 22) (some 50) (fun _ => false) 200
      false false demoChosen
      (backToSelection (monitoringAndSendingScreen 40000 1800 (some 22) (some 50)
        (fun _ => false) 200 demoChosen))
      rfl rfl
      (by rw [loopTick_monitoring 40000 1800 (some 22) (some 50) (fun _ => false)
            200 false false true demoChosen rfl rfl]
          norm_num [postDue, uint32Mod, postingInterval, demoChosen, demoState])⟩

/-! ## C7 — index range invariant -/

/-- A concrete state running in calibration mode, used by witnesses. -/
def demoCalib : AppState := { demoState with calibrationMode := true }

/-- C7: `selectedPlantIndex` starts at 0 (inside `[0, numPlants)` for the
shipped one-entry profile list) and every loop iteration — button presses
included — keeps it inside `[0, numPlants)`. -/
theorem index_invariant :
    (∀ w : Bool, (initialState w).selectedPlantIndex = 0 ∧
      0 ≤ (initialState w).selectedPlantIndex ∧
      (initialState w).selectedPlantIndex < (initialState w).numPlants) ∧
    (∀ now soil : Int, ∀ temp hum : Option ℚ, ∀ connAt : Nat → Bool,
      ∀ httpCode : Int, ∀ up down sel : Bool, ∀ s s' : AppState,
      0 ≤ s.selectedPlantIndex → s.selectedPlantIndex < s.numPlants →
      loopTick now soil temp hum connAt httpCode up down sel s = some s' →
      0 ≤ s'.selectedPlantIndex ∧ s'.selectedPlantIndex < s'.numPlants) := by
  refine ⟨fun w => ⟨rfl, le_refl 0, by simp [initialState, plantProfiles]⟩, ?_⟩
  intro now soil temp hum connAt httpCode up down sel s s' h0 h1 h
  cases hcal : s.calibrationMode with
  | true =>
      rw [loopTick_calib now soil temp hum connAt httpCode up down sel s hcal] at h
      have := Option.some_inj.mp h
      subst this
      exact ⟨h0, h1⟩
  | false =>
      cases hch : s.plantWasChosen with
      | false =>
          rw [loopTick_selecting now soil temp hum connAt httpCode up down sel s
            hcal hch] at h
          have hs := selectionScreen_some up down sel s s' h
          have hb := hs.2.2.2.2.2.2.2.2.2 h0 h1
          exact ⟨hb.1, hs.2.1 ▸ hb.2⟩
      | true =>
          rw [loopTick_monitoring now soil temp hum connAt httpCode up down sel s
            hcal hch] at h
          have := Option.some_inj.mp h
          subst this
          have hm := monitoring_frame now soil temp hum connAt httpCode s
          cases sel <;> cases hpd : postDue now s.lastConnectionTime <;>
            simp [backToSelection, hpd, hm.2.1, hm.2.2.1] <;>
            omega

/-- Witness for C7: the startup state, and a tick on a concrete in-range
state, both land inside `[0, numPlants)`. -/
theorem index_invariant_witness :
    ((initialState true).selectedPlantIndex = 0 ∧
      0 ≤ (initialState true).selectedPlantIndex ∧
      (initialState true).selectedPlantIndex < (initialState true).numPlants) ∧
    (0 ≤ (runCalibrationMode 1800 demoCalib).selectedPlantIndex ∧
      (runCalibrationMode 1800 demoCalib).selectedPlantIndex
        < (runCalibrationMode 1800 demoCalib).numPlants) :=
  ⟨index_invariant.1 true,
   index_invariant.2 100 1800 (some 22) (some 50) (fun _ => false) 200
     false false false demoCalib (runCalibrationMode 1800 demoCalib)
     (by decide) (by decide) rfl⟩

/-! ## C9 — the profile table is never written -/

/-- C9: no operation of the program — a whole loop iteration, WiFi
handling, a monitoring cycle, calibration, or the selection screen — ever
changes the profile list or `numPlants`. -/
theorem profiles_immutable :
    (∀ now soil : Int, ∀ temp hum : Option ℚ, ∀ connAt : Nat → Bool,
      ∀ httpCode : Int, ∀ up down sel : Bool, ∀ s s' : AppState,
      loopTick now soil temp hum connAt httpCode up down sel s = some s' →
      s'.profiles = s.profiles ∧ s'.numPlants = s.numPlants) ∧
    (∀ connAt : Nat → Bool, ∀ s : AppState,
      (connectWiFi connAt s).profiles = s.profiles ∧
      (connectWiFi connAt s).numPlants = s.numPlants) ∧
    (∀ now soil : Int, ∀ temp hum : Option ℚ, ∀ connAt : Nat → Bool,
      ∀ httpCode : Int, ∀ s : AppState,
      (monitoringAndSendingScreen now soil temp hum connAt httpCode s).profiles
        = s.profiles ∧
      (monitoringAndSendingScreen now soil temp hum connAt httpCode s).numPlants
        = s.numPlants) ∧
    (∀ soil : Int, ∀ s : AppState,
      (runCalibrationMode soil s).profiles = s.profiles ∧
      (runCalibrationMode soil s).numPlants = s.numPlants) ∧
    (∀ up down sel : Bool, ∀ s s' : AppState,
      selectionScreen up down sel s = some s' →
      s'.profiles = s.profiles ∧ s'.numPlants = s.numPlants) := by
  have hsel : ∀ up down sel : Bool, ∀ s s' : AppState,
      selectionScreen up down sel s = some s' →
      s'.profiles = s.profiles ∧ s'.numPlants = s.numPlants := by
    intro up down sel s s' h
    have hs := selectionScreen_some up down sel s s' h
    exact ⟨hs.1, hs.2.1⟩
  have hmon : ∀ now soil : Int, ∀ temp hum : Option ℚ, ∀ connAt : Nat → Bool,
      ∀ httpCode : Int, ∀ s : AppState,
      (monitoringAndSendingScreen now soil temp hum connAt httpCode s).profiles
        = s.profiles ∧
      (monitoringAndSendingScreen now soil temp hum connAt httpCode s).numPlants
        = s.numPlants := by
    intro now soil temp hum connAt httpCode s
    have hm := monitoring_frame now soil temp hum connAt httpCode s
    exact ⟨hm.1, hm.2.1⟩
  refine ⟨?_, ?_, hmon, fun soil s => ⟨rfl, rfl⟩, hsel⟩
  · intro now soil temp hum connAt httpCode up down sel s s' h
    cases hcal : s.calibrationMode with
    | true =>
        rw [loopTick_calib now soil temp hum connAt httpCode up down sel s hcal] at h
        have := Option.some_inj.mp h
        subst this
        exact ⟨rfl, rfl⟩
    | false =>
        cases hch : s.plantWasChosen with
        | false =>
            rw [loopTick_selecting now soil temp hum connAt httpCode up down sel s
              hcal hch] at h
            exact hsel up down sel s s' h
        | true =>
            rw [loopTick_monitoring now soil temp hum connAt httpCode up down sel s
              hcal hch] at h
            have := Option.some_inj.mp h
            subst this
            have hm := monitoring_frame now soil temp hum connAt httpCode s
            cases sel <;> cases hpd : postDue now s.lastConnectionTime <;>
              simp [backToSelection, hpd, hm.1, hm.2.1]
  · intro connAt s
    have hc := connectWiFi_frame connAt s
    exact ⟨hc.1, hc.2.1⟩

/-- Witness for C9: a concrete calibration tick and a concrete
`connectWiFi` run leave `profiles` and `numPlants` untouched. -/
theorem profiles_immutable_witness :
    ((runCalibrationMode 1800 demoCalib).profiles = demoCalib.profiles ∧
      (runCalibrationMode 1800 demoCalib).numPlants = demoCalib.numPlants) ∧
    ((connectWiFi (fun _ => false) demoState).profiles = demoState.profiles ∧
      (connectWiFi (fun _ => false) demoState).numPlants = demoState.numPlants) :=
  ⟨profiles_immutable.1 100 1800 (some 22) (some 50) (fun _ => false) 200
      false false false demoCalib (runCalibrationMode 1800 demoCalib) rfl,
   profiles_immutable.2.1 (fun _ => false) demoState⟩

end SoilSentinel
